import Mathlib

/-!
Verification of the carousel synchronization core of `kanatal-homestay.js`
(classes `RoomsCarousel` and `AmenitiesCarousel`) against its natural-language
specification.  Scroll offsets and element widths are modelled as rationals
(the source works with JavaScript numbers; all the formulas are exact rational
arithmetic), indices as integers, and code that can throw a `TypeError`
(reading `offsetWidth` off a missing first card) returns `Except`.

The DOM environment is modelled as follows: the container's item children are
a list of card widths (`cards`), per-event geometry reads (`scrollLeft`,
`scrollWidth`, `clientWidth`) arrive as a `ScrollGeom` record, and the
commands the controller issues outward (smooth scroll, indicator/control
re-render, arming the 500 ms settle timer) are collected in an `Effect` trace
in the order the source issues them.
-/

/-- Error raised by a JavaScript computation; the only failure the carousel
code can hit is a `TypeError` from dereferencing a missing first card
(`cards[0].offsetWidth` / `querySelector(...).offsetWidth` on `null`). -/
inductive JsErr
  | typeError
deriving Repr, DecidableEq

/-- JavaScript `Math.round` on rationals: round half toward positive infinity. -/
def jsRound (x : ℚ) : ℤ := ⌊x + 1 / 2⌋

/-- The clamping pattern `Math.max(0, Math.min(x, hi))` used throughout the file. -/
def jsClamp (x hi : ℤ) : ℤ := max 0 (min x hi)

/-- Indicator/control presentation state written by `updateUI`: the `active`
flag of each carousel dot (in document order) and the `disabled` flags of the
prev/next arrows.  The amenities carousel has no dot elements, so its list is
empty. -/
structure UI where
  dots : List Bool
  prevDisabled : Bool
  nextDisabled : Bool
deriving Repr, DecidableEq

/-- Outward commands issued by the controller, in program order. -/
inductive Effect
  | scrollTo (offset : ℚ)
  | render (ui : UI)
  | armTimer
deriving Repr, DecidableEq

/-- Geometry read from the container during a scroll event. -/
structure ScrollGeom where
  scrollLeft : ℚ
  scrollWidth : ℚ
  clientWidth : ℚ
deriving Repr, DecidableEq

/-- Keys relevant to the keyboard handler of `RoomsCarousel`. -/
inductive Key
  | arrowLeft
  | arrowRight
  | other
deriving Repr, DecidableEq

/-- Mutable state of a `RoomsCarousel` instance.  `cards` is the (static)
list of `.room-card` children by width; `this.totalRooms` is assigned once in
`init` from `querySelectorAll('.room-card').length` and never mutated, so it
is modelled as the derived `RoomsState.totalRooms`.  `dotCount` is the number
of dot buttons currently in the dots container (built by `createDots`). -/
structure RoomsState where
  cards : List ℚ
  currentIndex : ℤ
  isScrolling : Bool
  isMobile : Bool
  dotCount : ℕ
deriving Repr, DecidableEq

def RoomsState.totalRooms (s : RoomsState) : ℕ := s.cards.length

/-- The bound `this.isMobile ? this.totalRooms - 1 : this.totalRooms - 2`
computed locally (with the same expression) in `goToPrevious`, `goToNext` and
`updateUI`, and inlined in `syncWithScroll`. -/
def RoomsState.maxIndex (s : RoomsState) : ℤ :=
  if s.isMobile then (s.totalRooms : ℤ) - 1 else (s.totalRooms : ℤ) - 2

/-- Number of dots built by `RoomsCarousel.createDots`:
`this.isMobile ? this.totalRooms : Math.max(1, this.totalRooms - 1)`. -/
def roomsNumDots (isMobile : Bool) (totalRooms : ℕ) : ℕ :=
  if isMobile then totalRooms else max 1 (totalRooms - 1)

/-- `RoomsCarousel.updateUI`: dot `index` gets `active` iff
`index === this.currentIndex`; the left arrow is disabled iff
`this.currentIndex === 0`; the right arrow iff
`this.currentIndex >= maxIndex`. -/
def roomsUpdateUI (s : RoomsState) : UI :=
  { dots := (List.range s.dotCount).map fun (i : ℕ) => decide ((i : ℤ) = s.currentIndex)
    prevDisabled := decide (s.currentIndex = 0)
    nextDisabled := decide (s.maxIndex ≤ s.currentIndex) }

/-- `RoomsCarousel.updateCarousel`: sets `isScrolling = true`, reads
`cards[0].offsetWidth` (a `TypeError` when there are no cards), computes
`scrollPosition = (cardWidth + 30) * this.currentIndex` (the mobile and
desktop branches of the source compute the same expression), then issues the
smooth scroll, calls `updateUI`, and arms the 500 ms settle timer — in that
order. -/
def roomsUpdateCarousel (s0 : RoomsState) : Except JsErr (RoomsState × List Effect) :=
  let s := { s0 with isScrolling := true }
  match s.cards.head? with
  | none => .error .typeError
  | some cardWidth =>
    let gap : ℚ := 30
    let scrollPosition := (cardWidth + gap) * (s.currentIndex : ℚ)
    .ok (s, [.scrollTo scrollPosition, .render (roomsUpdateUI s), .armTimer])

/-- `RoomsCarousel.syncWithScroll`: early-returns while `isScrolling`;
otherwise reads the first card's width (a `TypeError` when there are no
cards), recomputes the index — mobile:
`round(scrollLeft / (cardWidth + 30))` clamped to `[0, totalRooms - 1]`;
desktop: if `scrollWidth - clientWidth > 0` then
`round(scrollLeft / maxScroll * (totalRooms - 2))` clamped to
`[0, totalRooms - 2]`, else `0` — and re-renders only when the recomputed
index differs from the stored one.  The local `newIndex` computation of the
source is factored out as `roomsNewIndex`. -/
def roomsNewIndex (s : RoomsState) (g : ScrollGeom) (cardWidth : ℚ) : ℤ :=
  let gap : ℚ := 30
  if s.isMobile then
    jsClamp (jsRound (g.scrollLeft / (cardWidth + gap))) ((s.totalRooms : ℤ) - 1)
  else
    let maxScroll := g.scrollWidth - g.clientWidth
    if 0 < maxScroll then
      jsClamp (jsRound (g.scrollLeft / maxScroll * ((s.totalRooms : ℚ) - 2)))
        ((s.totalRooms : ℤ) - 2)
    else 0

def roomsSyncWithScroll (s : RoomsState) (g : ScrollGeom) :
    Except JsErr (RoomsState × List Effect) :=
  if s.isScrolling then .ok (s, [])
  else
    match s.cards.head? with
    | none => .error .typeError
    | some cardWidth =>
      let newIndex : ℤ := roomsNewIndex s g cardWidth
      if newIndex ≠ s.currentIndex then
        let s1 := { s with currentIndex := newIndex }
        .ok (s1, [.render (roomsUpdateUI s1)])
      else .ok (s, [])

/-- `RoomsCarousel.goToPrevious`: decrement and `updateCarousel` only when
`this.currentIndex > 0`. -/
def roomsGoToPrevious (s : RoomsState) : Except JsErr (RoomsState × List Effect) :=
  if 0 < s.currentIndex then
    roomsUpdateCarousel { s with currentIndex := s.currentIndex - 1 }
  else .ok (s, [])

/-- `RoomsCarousel.goToNext`: increment and `updateCarousel` only when
`this.currentIndex < maxIndex`. -/
def roomsGoToNext (s : RoomsState) : Except JsErr (RoomsState × List Effect) :=
  if s.currentIndex < s.maxIndex then
    roomsUpdateCarousel { s with currentIndex := s.currentIndex + 1 }
  else .ok (s, [])

/-- `RoomsCarousel.goToSlide(index)`: assigns `this.currentIndex = index`
without any clamping, then `updateCarousel`. -/
def roomsGoToSlide (s : RoomsState) (index : ℤ) : Except JsErr (RoomsState × List Effect) :=
  roomsUpdateCarousel { s with currentIndex := index }

/-- `RoomsCarousel.init`: early-returns when the container is absent;
otherwise sets `totalRooms`, builds the dots, registers the listeners, and
ends with `updateCarousel()` (which throws when there are zero cards). -/
def roomsInit (container : Option (List ℚ)) (isMobile : Bool) :
    Except JsErr (Option (RoomsState × List Effect)) :=
  match container with
  | none => .ok none
  | some cards =>
    let s : RoomsState :=
      { cards := cards
        currentIndex := 0
        isScrolling := false
        isMobile := isMobile
        dotCount := roomsNumDots isMobile cards.length }
    (roomsUpdateCarousel s).map some

/-- The debounced resize handler of `RoomsCarousel.init`: stores the new
breakpoint classification; when it changed, clears and rebuilds the dots,
resets `currentIndex` to 0 and calls `updateCarousel`. -/
def roomsOnResize (s : RoomsState) (isMobileNew : Bool) :
    Except JsErr (RoomsState × List Effect) :=
  if s.isMobile ≠ isMobileNew then
    roomsUpdateCarousel
      { s with
        isMobile := isMobileNew
        dotCount := roomsNumDots isMobileNew s.totalRooms
        currentIndex := 0 }
  else .ok ({ s with isMobile := isMobileNew }, [])

/-- The `touchend` half of `RoomsCarousel.addSwipeSupport`, given the
completed horizontal drag's `diff = startX - endX`: `goToNext` when
`diff > 0` and `|diff| > 50`, `goToPrevious` when `diff < 0` and
`|diff| > 50`, otherwise nothing. -/
def roomsOnSwipe (s : RoomsState) (diff : ℚ) : Except JsErr (RoomsState × List Effect) :=
  if 50 < |diff| then
    if 0 < diff then roomsGoToNext s else roomsGoToPrevious s
  else .ok (s, [])

/-- `RoomsCarousel.addKeyboardSupport`'s keydown handler: ignored unless the
carousel's bounding box intersects the viewport; `ArrowLeft` maps to
`goToPrevious`, `ArrowRight` to `goToNext`. -/
def roomsOnKeydown (s : RoomsState) (k : Key) (isInView : Bool) :
    Except JsErr (RoomsState × List Effect) :=
  if isInView then
    match k with
    | .arrowLeft => roomsGoToPrevious s
    | .arrowRight => roomsGoToNext s
    | .other => .ok (s, [])
  else .ok (s, [])

/-- The 500 ms settle timer armed by `updateCarousel` firing:
`this.isScrolling = false`. -/
def roomsOnSettleTimer (s : RoomsState) : RoomsState := { s with isScrolling := false }

/-- Mutable state of an `AmenitiesCarousel` instance; as for the rooms
carousel, `this.totalCards` is assigned once from the card list and modelled
as derived.  This carousel has no dots container. -/
structure AmenState where
  cards : List ℚ
  currentIndex : ℤ
  isScrolling : Bool
  isMobile : Bool
deriving Repr, DecidableEq

def AmenState.totalCards (s : AmenState) : ℕ := s.cards.length

/-- The bound
`this.isMobile ? this.totalCards - 1 : Math.max(0, this.totalCards - 4)`
computed locally in `goToPrevious`, `goToNext` and `updateUI` of
`AmenitiesCarousel`, and inlined in its `syncWithScroll`. -/
def AmenState.maxIndex (s : AmenState) : ℤ :=
  if s.isMobile then (s.totalCards : ℤ) - 1 else max 0 ((s.totalCards : ℤ) - 4)

/-- `AmenitiesCarousel.updateUI`: only the two arrows are updated — this
carousel has no indicator elements, so the dot list is empty. -/
def amenUpdateUI (s : AmenState) : UI :=
  { dots := []
    prevDisabled := decide (s.currentIndex = 0)
    nextDisabled := decide (s.maxIndex ≤ s.currentIndex) }

/-- `AmenitiesCarousel.updateCarousel`: same shape as the rooms version with
`gap = 20`. -/
def amenUpdateCarousel (s0 : AmenState) : Except JsErr (AmenState × List Effect) :=
  let s := { s0 with isScrolling := true }
  match s.cards.head? with
  | none => .error .typeError
  | some cardWidth =>
    let gap : ℚ := 20
    let scrollPosition := (cardWidth + gap) * (s.currentIndex : ℚ)
    .ok (s, [.scrollTo scrollPosition, .render (amenUpdateUI s), .armTimer])

/-- `AmenitiesCarousel.syncWithScroll`: early-returns while `isScrolling`;
the mobile branch reads the first card's width (a `TypeError` when there are
no cards) and uses `round(scrollLeft / (cardWidth + 20))` clamped to
`[0, totalCards - 1]`; the desktop branch reads no card width and uses
`round(scrollLeft / maxScroll * Math.max(0, totalCards - 4))` clamped to
`[0, Math.max(0, totalCards - 4)]` when `maxScroll > 0`, else `0`.
Re-renders only on an index change.  The local `newIndex` computation of the
source is factored out as `amenNewIndex`. -/
def amenNewIndex (s : AmenState) (g : ScrollGeom) : Except JsErr ℤ :=
  if s.isMobile then
    match s.cards.head? with
    | none => .error .typeError
    | some cardWidth =>
      let gap : ℚ := 20
      .ok (jsClamp (jsRound (g.scrollLeft / (cardWidth + gap))) ((s.totalCards : ℤ) - 1))
  else
    let maxScroll := g.scrollWidth - g.clientWidth
    if 0 < maxScroll then
      .ok (jsClamp
        (jsRound (g.scrollLeft / maxScroll * ((max 0 ((s.totalCards : ℤ) - 4) : ℤ) : ℚ)))
        (max 0 ((s.totalCards : ℤ) - 4)))
    else .ok 0

def amenSyncWithScroll (s : AmenState) (g : ScrollGeom) :
    Except JsErr (AmenState × List Effect) :=
  if s.isScrolling then .ok (s, [])
  else
    match amenNewIndex s g with
    | .error e => .error e
    | .ok newIndex =>
      if newIndex ≠ s.currentIndex then
        let s1 := { s with currentIndex := newIndex }
        .ok (s1, [.render (amenUpdateUI s1)])
      else .ok (s, [])

/-- `AmenitiesCarousel.goToPrevious`. -/
def amenGoToPrevious (s : AmenState) : Except JsErr (AmenState × List Effect) :=
  if 0 < s.currentIndex then
    amenUpdateCarousel { s with currentIndex := s.currentIndex - 1 }
  else .ok (s, [])

/-- `AmenitiesCarousel.goToNext`. -/
def amenGoToNext (s : AmenState) : Except JsErr (AmenState × List Effect) :=
  if s.currentIndex < s.maxIndex then
    amenUpdateCarousel { s with currentIndex := s.currentIndex + 1 }
  else .ok (s, [])

/-- `AmenitiesCarousel.init`: early-returns when the container is absent;
otherwise registers the listeners and ends with `updateCarousel()`. -/
def amenInit (container : Option (List ℚ)) (isMobile : Bool) :
    Except JsErr (Option (AmenState × List Effect)) :=
  match container with
  | none => .ok none
  | some cards =>
    let s : AmenState :=
      { cards := cards, currentIndex := 0, isScrolling := false, isMobile := isMobile }
    (amenUpdateCarousel s).map some

/-- The debounced resize handler of `AmenitiesCarousel.init`: on a breakpoint
flip, resets `currentIndex` to 0 and calls `updateCarousel` (no dots to
rebuild). -/
def amenOnResize (s : AmenState) (isMobileNew : Bool) :
    Except JsErr (AmenState × List Effect) :=
  if s.isMobile ≠ isMobileNew then
    amenUpdateCarousel { s with isMobile := isMobileNew, currentIndex := 0 }
  else .ok ({ s with isMobile := isMobileNew }, [])

/-- The `touchend` half of `AmenitiesCarousel.addSwipeSupport`. -/
def amenOnSwipe (s : AmenState) (diff : ℚ) : Except JsErr (AmenState × List Effect) :=
  if 50 < |diff| then
    if 0 < diff then amenGoToNext s else amenGoToPrevious s
  else .ok (s, [])

/-- The settle timer of `AmenitiesCarousel.updateCarousel` firing. -/
def amenOnSettleTimer (s : AmenState) : AmenState := { s with isScrolling := false }

/-- Formula the specification's data model states for the derived `maxIndex`:
`itemCount - visibleCount` when `itemCount ≥ visibleCount`, else 0.  Stated
from the spec's words, for comparison with the per-instance bounds the source
actually computes. -/
def specMaxIndex (itemCount visibleCount : ℕ) : ℤ :=
  if visibleCount ≤ itemCount then (itemCount : ℤ) - (visibleCount : ℤ) else 0

/-- Formula the specification gives for the scroll-derived index in
`onContainerScroll`, stated from the spec's words: narrow mode
`round(scrollOffset / (cardWidth + gap))` clamped to `[0, itemCount - 1]`;
wide mode `round(scrollOffset / maxScroll * maxIndex)` clamped to
`[0, maxIndex]` when `maxScroll > 0`, else 0. -/
def specScrollIndex (narrow : Bool) (itemCount : ℕ) (maxIdx : ℤ)
    (cardWidth gap scrollLeft maxScroll : ℚ) : ℤ :=
  if narrow then
    jsClamp (jsRound (scrollLeft / (cardWidth + gap))) ((itemCount : ℤ) - 1)
  else if 0 < maxScroll then
    jsClamp (jsRound (scrollLeft / maxScroll * (maxIdx : ℚ))) maxIdx
  else 0

/-- Timeline semantics of the `isScrolling` flag: each call of
`updateCarousel` at time `c` assigns `true` and arms an (uncancellable)
`setTimeout` that assigns `false` at `c + 500`; the flag's value at time `t`
is the latest assignment at or before `t` (initially `false`; a command
issued at the very instant a timer fires wins the tie, matching the handler
running after the elapsed timer callback in the same event-loop turn).  `cmds`
is the list of times at which `updateCarousel` ran. -/
def isScrollingAt (cmds : List ℤ) (t : ℤ) : Bool :=
  cmds.any fun c => c ≤ t && cmds.all fun d => !(d + 500 ≤ t) || d + 500 ≤ c

/-- Input event categories wired up by the two `init` methods. -/
inductive EventKind
  | clickLeft
  | clickRight
  | containerScroll
  | touchstart
  | touchmove
  | touchend
  | windowResize
  | keydown
deriving Repr, DecidableEq

/-- The complete list of event registrations made while constructing
`RoomsCarousel` (`init`, `addSwipeSupport`, `addKeyboardSupport`): arrow
clicks, container scroll, the three touch events, a document-level keydown
handler, and window resize. -/
def roomsRegistrations : List EventKind :=
  [.clickLeft, .clickRight, .containerScroll, .touchstart, .touchmove, .touchend,
   .keydown, .windowResize]

/-- The complete list of event registrations made while constructing
`AmenitiesCarousel` (`init`, `addSwipeSupport`): arrow clicks, container
scroll, the three touch events, and window resize — no keydown handler. -/
def amenRegistrations : List EventKind :=
  [.clickLeft, .clickRight, .containerScroll, .touchstart, .touchmove, .touchend,
   .windowResize]

/-- Payload accompanying a dispatched event: container geometry, the
completed swipe's horizontal delta, the pressed key, whether this carousel's
bounding box intersects the viewport, and the recomputed breakpoint flag. -/
structure EventPayload where
  geom : ScrollGeom
  swipeDiff : ℚ
  key : Key
  isInView : Bool
  isMobileNew : Bool

/-- Dispatch of one event to an `AmenitiesCarousel` instance: the handler
registered for the event runs; events it never registered for (keydown)
leave the instance untouched.  `touchstart`/`touchmove` handlers only mutate
gesture-local variables, not the carousel state. -/
def amenOnEvent (e : EventKind) (s : AmenState) (p : EventPayload) :
    Except JsErr (AmenState × List Effect) :=
  if e ∈ amenRegistrations then
    match e with
    | .clickLeft => amenGoToPrevious s
    | .clickRight => amenGoToNext s
    | .containerScroll => amenSyncWithScroll s p.geom
    | .touchend => amenOnSwipe s p.swipeDiff
    | .windowResize => amenOnResize s p.isMobileNew
    | _ => .ok (s, [])
  else .ok (s, [])

/-- One externally triggered operation on the rooms carousel. -/
inductive RoomsOp
  | next
  | prev
  | slide (i : ℤ)
  | scroll (g : ScrollGeom)
  | swipe (diff : ℚ)
  | key (k : Key) (isInView : Bool)
  | resize (isMobileNew : Bool)
  | settle

/-- Step function tying each operation to its handler in the source. -/
def roomsStep (s : RoomsState) : RoomsOp → Except JsErr (RoomsState × List Effect)
  | .next => roomsGoToNext s
  | .prev => roomsGoToPrevious s
  | .slide i => roomsGoToSlide s i
  | .scroll g => roomsSyncWithScroll s g
  | .swipe d => roomsOnSwipe s d
  | .key k v => roomsOnKeydown s k v
  | .resize m => roomsOnResize s m
  | .settle => .ok (roomsOnSettleTimer s, [])

/-- Running a sequence of operations on the rooms carousel. -/
def roomsRun (s : RoomsState) : List RoomsOp → Except JsErr RoomsState
  | [] => .ok s
  | op :: ops =>
    match roomsStep s op with
    | .error e => .error e
    | .ok (s1, _) => roomsRun s1 ops

/-- One externally triggered operation on the amenities carousel (it has no
dots and registers no keyboard handler, so there are no `slide`/`key`
operations). -/
inductive AmenOp
  | next
  | prev
  | scroll (g : ScrollGeom)
  | swipe (diff : ℚ)
  | resize (isMobileNew : Bool)
  | settle

/-- Step function for the amenities carousel. -/
def amenStep (s : AmenState) : AmenOp → Except JsErr (AmenState × List Effect)
  | .next => amenGoToNext s
  | .prev => amenGoToPrevious s
  | .scroll g => amenSyncWithScroll s g
  | .swipe d => amenOnSwipe s d
  | .resize m => amenOnResize s m
  | .settle => .ok (amenOnSettleTimer s, [])

/-- Running a sequence of operations on the amenities carousel. -/
def amenRun (s : AmenState) : List AmenOp → Except JsErr AmenState
  | [] => .ok s
  | op :: ops =>
    match amenStep s op with
    | .error e => .error e
    | .ok (s1, _) => amenRun s1 ops

/-- A `goToSlide` argument is in range exactly when it lies in
`[0, maxIndex]`; the indicator click wiring produced by `createDots` only
passes such arguments (dot positions `0 .. numDots - 1`). -/
def RoomsSlideOk (s : RoomsState) : RoomsOp → Prop
  | .slide i => 0 ≤ i ∧ i ≤ s.maxIndex
  | _ => True

/-- Every `slide` operation in the list carries an argument that is in range
at the state at which it runs. -/
inductive RoomsOpsOk : RoomsState → List RoomsOp → Prop
  | nil (s : RoomsState) : RoomsOpsOk s []
  | cons (s : RoomsState) (op : RoomsOp) (ops : List RoomsOp)
      (hok : RoomsSlideOk s op)
      (hrest : ∀ s1 effs, roomsStep s op = .ok (s1, effs) → RoomsOpsOk s1 ops) :
      RoomsOpsOk s (op :: ops)

/-- Test that a render of the indicator/control state appears strictly before
the scroll command in an effect trace (the ordering the spec asserts);
vacuously true when one of the two is absent. -/
def renderBeforeScroll (effs : List Effect) : Bool :=
  match effs.findIdx? (fun e => match e with | .render _ => true | _ => false),
        effs.findIdx? (fun e => match e with | .scrollTo _ => true | _ => false) with
  | some r, some c => decide (r < c)
  | _, _ => true

lemma jsRound_intCast (k : ℤ) : jsRound (k : ℚ) = k := by
  unfold jsRound
  rw [add_comm, Int.floor_add_int]
  norm_num

lemma jsClamp_of_mem {x hi : ℤ} (h0 : 0 ≤ x) (h1 : x ≤ hi) : jsClamp x hi = x := by
  unfold jsClamp
  omega

lemma jsClamp_nonneg (x hi : ℤ) : 0 ≤ jsClamp x hi := by
  unfold jsClamp
  omega

lemma jsClamp_le {x hi : ℤ} (h : 0 ≤ hi) : jsClamp x hi ≤ hi := by
  unfold jsClamp
  omega

lemma roomsUpdateCarousel_ok (s : RoomsState) (w : ℚ) (rest : List ℚ)
    (hc : s.cards = w :: rest) :
    roomsUpdateCarousel s = .ok ({ s with isScrolling := true },
      [.scrollTo ((w + 30) * (s.currentIndex : ℚ)),
       .render (roomsUpdateUI { s with isScrolling := true }), .armTimer]) := by
  unfold roomsUpdateCarousel
  simp [hc]

lemma amenUpdateCarousel_ok (s : AmenState) (w : ℚ) (rest : List ℚ)
    (hc : s.cards = w :: rest) :
    amenUpdateCarousel s = .ok ({ s with isScrolling := true },
      [.scrollTo ((w + 20) * (s.currentIndex : ℚ)),
       .render (amenUpdateUI { s with isScrolling := true }), .armTimer]) := by
  unfold amenUpdateCarousel
  simp [hc]

/-- A concrete rooms carousel: three 300-wide cards, narrow viewport,
settled at index 0 (three dots, `maxIndex = 2`). -/
def roomsMobile3 : RoomsState :=
  { cards := [300, 300, 300], currentIndex := 0, isScrolling := false, isMobile := true,
    dotCount := 3 }

/-- A concrete rooms carousel: four 300-wide cards, wide viewport, settled at
index 1 (three dots, `maxIndex = 2`). -/
def roomsWide4 : RoomsState :=
  { cards := [300, 300, 300, 300], currentIndex := 1, isScrolling := false, isMobile := false,
    dotCount := 3 }

/-- A concrete amenities carousel: eight 250-wide cards, wide viewport,
settled at index 1 (`maxIndex = 4`). -/
def amenWide8 : AmenState :=
  { cards := [250, 250, 250, 250, 250, 250, 250, 250], currentIndex := 1,
    isScrolling := false, isMobile := false }

/-- Counterexample to C1 as stated: `goToSlide` stores its argument without
clamping, so `goToSlide(5)` on a three-card narrow carousel (`maxIndex = 2`)
leaves `currentIndex = 5`, not `clamp(5, 0, 2) = 2`. -/
theorem C1_counterexample :
    (roomsGoToSlide roomsMobile3 5).map (fun p => p.1.currentIndex) ≠
      .ok (jsClamp 5 roomsMobile3.maxIndex) := by
  norm_num [roomsGoToSlide, roomsUpdateCarousel, roomsMobile3, jsClamp,
    RoomsState.maxIndex, RoomsState.totalRooms, Except.map]

/-- C1 (amended): `goToSlide(i)` stores `i` unclamped; for the arguments the
indicator wiring can actually pass — `i ∈ [0, maxIndex]` — the result equals
`clamp(i, 0, maxIndex)`, on any carousel with at least one item. -/
theorem C1_goToSlide_clamp_in_range (s : RoomsState) (w : ℚ) (rest : List ℚ) (i : ℤ)
    (hc : s.cards = w :: rest) (h0 : 0 ≤ i) (h1 : i ≤ s.maxIndex) :
    (roomsGoToSlide s i).map (fun p => p.1.currentIndex) = .ok (jsClamp i s.maxIndex) := by
  rw [roomsGoToSlide, roomsUpdateCarousel_ok { s with currentIndex := i } w rest hc,
    jsClamp_of_mem h0 h1]
  rfl

/-- Witness for C1 (amended) at `i = 1` on the three-card narrow carousel. -/
theorem C1_goToSlide_clamp_in_range_witness :
    (roomsGoToSlide roomsMobile3 1).map (fun p => p.1.currentIndex) =
      .ok (jsClamp 1 roomsMobile3.maxIndex) :=
  C1_goToSlide_clamp_in_range roomsMobile3 300 [300, 300] 1 rfl (by norm_num)
    (by norm_num [roomsMobile3, RoomsState.maxIndex, RoomsState.totalRooms])

lemma roomsMaxIndex_nonneg {s : RoomsState} (hn : 2 ≤ s.cards.length) : 0 ≤ s.maxIndex := by
  unfold RoomsState.maxIndex RoomsState.totalRooms
  split <;> omega

lemma roomsGoToNext_inv {s s1 : RoomsState} {effs : List Effect}
    (w : ℚ) (rest : List ℚ) (hc : s.cards = w :: rest)
    (h0 : 0 ≤ s.currentIndex) (h1 : s.currentIndex ≤ s.maxIndex)
    (h : roomsGoToNext s = .ok (s1, effs)) :
    s1.cards = s.cards ∧ 0 ≤ s1.currentIndex ∧ s1.currentIndex ≤ s1.maxIndex := by
  rw [roomsGoToNext] at h
  split at h
  · rw [roomsUpdateCarousel_ok { s with currentIndex := s.currentIndex + 1 } w rest hc] at h
    simp only [Except.ok.injEq, Prod.mk.injEq] at h
    obtain ⟨h2, -⟩ := h
    subst h2
    refine ⟨rfl, ?_, ?_⟩
    · show (0 : ℤ) ≤ s.currentIndex + 1
      omega
    · show s.currentIndex + 1 ≤ s.maxIndex
      omega
  · simp only [Except.ok.injEq, Prod.mk.injEq] at h
    obtain ⟨h2, -⟩ := h
    subst h2
    exact ⟨rfl, h0, h1⟩

lemma roomsGoToPrevious_inv {s s1 : RoomsState} {effs : List Effect}
    (w : ℚ) (rest : List ℚ) (hc : s.cards = w :: rest)
    (h0 : 0 ≤ s.currentIndex) (h1 : s.currentIndex ≤ s.maxIndex)
    (h : roomsGoToPrevious s = .ok (s1, effs)) :
    s1.cards = s.cards ∧ 0 ≤ s1.currentIndex ∧ s1.currentIndex ≤ s1.maxIndex := by
  rw [roomsGoToPrevious] at h
  split at h
  · rw [roomsUpdateCarousel_ok { s with currentIndex := s.currentIndex - 1 } w rest hc] at h
    simp only [Except.ok.injEq, Prod.mk.injEq] at h
    obtain ⟨h2, -⟩ := h
    subst h2
    refine ⟨rfl, ?_, ?_⟩
    · show (0 : ℤ) ≤ s.currentIndex - 1
      omega
    · show s.currentIndex - 1 ≤ s.maxIndex
      omega
  · simp only [Except.ok.injEq, Prod.mk.injEq] at h
    obtain ⟨h2, -⟩ := h
    subst h2
    exact ⟨rfl, h0, h1⟩


lemma roomsNewIndex_bounds (s : RoomsState) (g : ScrollGeom) (cw : ℚ)
    (hn : 2 ≤ s.cards.length) :
    0 ≤ roomsNewIndex s g cw ∧ roomsNewIndex s g cw ≤ s.maxIndex := by
  have hn' : 2 ≤ (s.totalRooms : ℤ) := by unfold RoomsState.totalRooms; omega
  unfold roomsNewIndex RoomsState.maxIndex
  cases s.isMobile with
  | true =>
    simp only [if_true]
    exact ⟨jsClamp_nonneg _ _, jsClamp_le (by omega)⟩
  | false =>
    simp only [Bool.false_eq_true, if_false]
    split
    · exact ⟨jsClamp_nonneg _ _, jsClamp_le (by omega)⟩
    · exact ⟨le_refl 0, by omega⟩

lemma roomsSyncWithScroll_inv {s s1 : RoomsState} {g : ScrollGeom} {effs : List Effect}
    (hn : 2 ≤ s.cards.length)
    (h0 : 0 ≤ s.currentIndex) (h1 : s.currentIndex ≤ s.maxIndex)
    (h : roomsSyncWithScroll s g = .ok (s1, effs)) :
    s1.cards = s.cards ∧ 0 ≤ s1.currentIndex ∧ s1.currentIndex ≤ s1.maxIndex := by
  unfold roomsSyncWithScroll at h
  split at h
  · simp only [Except.ok.injEq, Prod.mk.injEq] at h
    obtain ⟨h2, -⟩ := h
    subst h2
    exact ⟨rfl, h0, h1⟩
  · split at h
    · simp at h
    · rename_i cardWidth heq
      dsimp only [] at h
      split at h
      · simp only [Except.ok.injEq, Prod.mk.injEq] at h
        obtain ⟨h2, -⟩ := h
        subst h2
        obtain ⟨hb0, hb1⟩ := roomsNewIndex_bounds s g cardWidth hn
        exact ⟨rfl, hb0, hb1⟩
      · simp only [Except.ok.injEq, Prod.mk.injEq] at h
        obtain ⟨h2, -⟩ := h
        subst h2
        exact ⟨rfl, h0, h1⟩

lemma roomsOnResize_inv {s s1 : RoomsState} {m : Bool} {effs : List Effect}
    (w : ℚ) (rest : List ℚ) (hc : s.cards = w :: rest) (hn : 2 ≤ s.cards.length)
    (h0 : 0 ≤ s.currentIndex) (h1 : s.currentIndex ≤ s.maxIndex)
    (h : roomsOnResize s m = .ok (s1, effs)) :
    s1.cards = s.cards ∧ 0 ≤ s1.currentIndex ∧ s1.currentIndex ≤ s1.maxIndex := by
  rw [roomsOnResize] at h
  split at h
  · rw [roomsUpdateCarousel_ok
      { s with isMobile := m, dotCount := roomsNumDots m s.totalRooms, currentIndex := 0 }
      w rest hc] at h
    simp only [Except.ok.injEq, Prod.mk.injEq] at h
    obtain ⟨h2, -⟩ := h
    subst h2
    refine ⟨rfl, le_refl 0, ?_⟩
    show (0 : ℤ) ≤ if m then (s.totalRooms : ℤ) - 1 else (s.totalRooms : ℤ) - 2
    have hn' : 2 ≤ (s.totalRooms : ℤ) := by unfold RoomsState.totalRooms; omega
    cases m <;> simp <;> omega
  · simp only [Except.ok.injEq, Prod.mk.injEq] at h
    obtain ⟨h2, -⟩ := h
    subst h2
    rename_i hne
    rw [not_ne_iff] at hne
    refine ⟨rfl, h0, ?_⟩
    show s.currentIndex ≤ ({ s with isMobile := m } : RoomsState).maxIndex
    rw [RoomsState.maxIndex]
    rw [RoomsState.maxIndex] at h1
    simpa [← hne] using h1

lemma roomsStep_inv (s : RoomsState) (op : RoomsOp) (s1 : RoomsState) (effs : List Effect)
    (hn : 2 ≤ s.cards.length) (h0 : 0 ≤ s.currentIndex) (h1 : s.currentIndex ≤ s.maxIndex)
    (hok : RoomsSlideOk s op) (hstep : roomsStep s op = .ok (s1, effs)) :
    s1.cards = s.cards ∧ 0 ≤ s1.currentIndex ∧ s1.currentIndex ≤ s1.maxIndex := by
  obtain ⟨w, rest, hc⟩ : ∃ w rest, s.cards = w :: rest := by
    cases hcs : s.cards with
    | nil => rw [hcs] at hn; simp at hn
    | cons a l => exact ⟨a, l, rfl⟩
  cases op with
  | next => exact roomsGoToNext_inv w rest hc h0 h1 hstep
  | prev => exact roomsGoToPrevious_inv w rest hc h0 h1 hstep
  | slide i =>
    obtain ⟨hi0, hi1⟩ := hok
    rw [roomsStep, roomsGoToSlide,
      roomsUpdateCarousel_ok { s with currentIndex := i } w rest hc] at hstep
    simp only [Except.ok.injEq, Prod.mk.injEq] at hstep
    obtain ⟨h2, -⟩ := hstep
    subst h2
    exact ⟨rfl, hi0, hi1⟩
  | scroll g => exact roomsSyncWithScroll_inv hn h0 h1 hstep
  | swipe d =>
    rw [roomsStep, roomsOnSwipe] at hstep
    split at hstep
    · split at hstep
      · exact roomsGoToNext_inv w rest hc h0 h1 hstep
      · exact roomsGoToPrevious_inv w rest hc h0 h1 hstep
    · simp only [Except.ok.injEq, Prod.mk.injEq] at hstep
      obtain ⟨h2, -⟩ := hstep
      subst h2
      exact ⟨rfl, h0, h1⟩
  | key k v =>
    rw [roomsStep] at hstep
    unfold roomsOnKeydown at hstep
    split at hstep
    · cases k with
      | arrowLeft => exact roomsGoToPrevious_inv w rest hc h0 h1 hstep
      | arrowRight => exact roomsGoToNext_inv w rest hc h0 h1 hstep
      | other =>
        simp only [Except.ok.injEq, Prod.mk.injEq] at hstep
        obtain ⟨h2, -⟩ := hstep
        subst h2
        exact ⟨rfl, h0, h1⟩
    · simp only [Except.ok.injEq, Prod.mk.injEq] at hstep
      obtain ⟨h2, -⟩ := hstep
      subst h2
      exact ⟨rfl, h0, h1⟩
  | resize m => exact roomsOnResize_inv w rest hc hn h0 h1 hstep
  | settle =>
    rw [roomsStep] at hstep
    simp only [Except.ok.injEq, Prod.mk.injEq] at hstep
    obtain ⟨h2, -⟩ := hstep
    subst h2
    exact ⟨rfl, h0, h1⟩

lemma roomsRun_inv (ops : List RoomsOp) (s : RoomsState) (s1 : RoomsState)
    (hn : 2 ≤ s.cards.length) (h0 : 0 ≤ s.currentIndex) (h1 : s.currentIndex ≤ s.maxIndex)
    (hok : RoomsOpsOk s ops) (hrun : roomsRun s ops = .ok s1) :
    0 ≤ s1.currentIndex ∧ s1.currentIndex ≤ s1.maxIndex := by
  induction ops generalizing s with
  | nil =>
    rw [roomsRun] at hrun
    simp only [Except.ok.injEq] at hrun
    subst hrun
    exact ⟨h0, h1⟩
  | cons op ops ih =>
    rw [roomsRun] at hrun
    cases hstep : roomsStep s op with
    | error e => rw [hstep] at hrun; simp at hrun
    | ok p =>
      obtain ⟨s2, effs⟩ := p
      rw [hstep] at hrun
      cases hok with
      | cons _ _ _ hop hrest =>
        obtain ⟨hcards, h0b, h1b⟩ := roomsStep_inv s op s2 effs hn h0 h1 hop hstep
        exact ih s2 (by rw [hcards]; exact hn) h0b h1b (hrest s2 effs hstep) hrun

lemma amenGoToNext_inv {s s1 : AmenState} {effs : List Effect}
    (w : ℚ) (rest : List ℚ) (hc : s.cards = w :: rest)
    (h0 : 0 ≤ s.currentIndex) (h1 : s.currentIndex ≤ s.maxIndex)
    (h : amenGoToNext s = .ok (s1, effs)) :
    s1.cards = s.cards ∧ 0 ≤ s1.currentIndex ∧ s1.currentIndex ≤ s1.maxIndex := by
  rw [amenGoToNext] at h
  split at h
  · rw [amenUpdateCarousel_ok { s with currentIndex := s.currentIndex + 1 } w rest hc] at h
    simp only [Except.ok.injEq, Prod.mk.injEq] at h
    obtain ⟨h2, -⟩ := h
    subst h2
    refine ⟨rfl, ?_, ?_⟩
    · show (0 : ℤ) ≤ s.currentIndex + 1
      omega
    · show s.currentIndex + 1 ≤ s.maxIndex
      omega
  · simp only [Except.ok.injEq, Prod.mk.injEq] at h
    obtain ⟨h2, -⟩ := h
    subst h2
    exact ⟨rfl, h0, h1⟩

lemma amenGoToPrevious_inv {s s1 : AmenState} {effs : List Effect}
    (w : ℚ) (rest : List ℚ) (hc : s.cards = w :: rest)
    (h0 : 0 ≤ s.currentIndex) (h1 : s.currentIndex ≤ s.maxIndex)
    (h : amenGoToPrevious s = .ok (s1, effs)) :
    s1.cards = s.cards ∧ 0 ≤ s1.currentIndex ∧ s1.currentIndex ≤ s1.maxIndex := by
  rw [amenGoToPrevious] at h
  split at h
  · rw [amenUpdateCarousel_ok { s with currentIndex := s.currentIndex - 1 } w rest hc] at h
    simp only [Except.ok.injEq, Prod.mk.injEq] at h
    obtain ⟨h2, -⟩ := h
    subst h2
    refine ⟨rfl, ?_, ?_⟩
    · show (0 : ℤ) ≤ s.currentIndex - 1
      omega
    · show s.currentIndex - 1 ≤ s.maxIndex
      omega
  · simp only [Except.ok.injEq, Prod.mk.injEq] at h
    obtain ⟨h2, -⟩ := h
    subst h2
    exact ⟨rfl, h0, h1⟩

lemma amenNewIndex_bounds {s : AmenState} {g : ScrollGeom} {k : ℤ}
    (hn : 1 ≤ s.cards.length) (h : amenNewIndex s g = .ok k) :
    0 ≤ k ∧ k ≤ s.maxIndex := by
  have hn' : 1 ≤ (s.totalCards : ℤ) := by unfold AmenState.totalCards; omega
  unfold amenNewIndex at h
  unfold AmenState.maxIndex
  cases hm : s.isMobile with
  | true =>
    rw [hm] at h
    simp only [if_true] at h
    split at h
    · simp at h
    · simp only [Except.ok.injEq] at h
      subst h
      simp only [if_true]
      exact ⟨jsClamp_nonneg _ _, jsClamp_le (by omega)⟩
  | false =>
    rw [hm] at h
    simp only [Bool.false_eq_true, if_false] at h
    simp only [Bool.false_eq_true, if_false]
    split at h
    · simp only [Except.ok.injEq] at h
      subst h
      exact ⟨jsClamp_nonneg _ _, jsClamp_le (by omega)⟩
    · simp only [Except.ok.injEq] at h
      subst h
      exact ⟨le_refl 0, by omega⟩

lemma amenSyncWithScroll_inv {s s1 : AmenState} {g : ScrollGeom} {effs : List Effect}
    (hn : 1 ≤ s.cards.length)
    (h0 : 0 ≤ s.currentIndex) (h1 : s.currentIndex ≤ s.maxIndex)
    (h : amenSyncWithScroll s g = .ok (s1, effs)) :
    s1.cards = s.cards ∧ 0 ≤ s1.currentIndex ∧ s1.currentIndex ≤ s1.maxIndex := by
  unfold amenSyncWithScroll at h
  split at h
  · simp only [Except.ok.injEq, Prod.mk.injEq] at h
    obtain ⟨h2, -⟩ := h
    subst h2
    exact ⟨rfl, h0, h1⟩
  · split at h
    · simp at h
    · rename_i k heq
      dsimp only [] at h
      split at h
      · simp only [Except.ok.injEq, Prod.mk.injEq] at h
        obtain ⟨h2, -⟩ := h
        subst h2
        obtain ⟨hb0, hb1⟩ := amenNewIndex_bounds hn heq
        exact ⟨rfl, hb0, hb1⟩
      · simp only [Except.ok.injEq, Prod.mk.injEq] at h
        obtain ⟨h2, -⟩ := h
        subst h2
        exact ⟨rfl, h0, h1⟩

lemma amenOnResize_inv {s s1 : AmenState} {m : Bool} {effs : List Effect}
    (w : ℚ) (rest : List ℚ) (hc : s.cards = w :: rest) (hn : 1 ≤ s.cards.length)
    (h0 : 0 ≤ s.currentIndex) (h1 : s.currentIndex ≤ s.maxIndex)
    (h : amenOnResize s m = .ok (s1, effs)) :
    s1.cards = s.cards ∧ 0 ≤ s1.currentIndex ∧ s1.currentIndex ≤ s1.maxIndex := by
  rw [amenOnResize] at h
  split at h
  · rw [amenUpdateCarousel_ok { s with isMobile := m, currentIndex := 0 } w rest hc] at h
    simp only [Except.ok.injEq, Prod.mk.injEq] at h
    obtain ⟨h2, -⟩ := h
    subst h2
    refine ⟨rfl, le_refl 0, ?_⟩
    show (0 : ℤ) ≤ if m then (s.totalCards : ℤ) - 1 else max 0 ((s.totalCards : ℤ) - 4)
    have hn' : 1 ≤ (s.totalCards : ℤ) := by unfold AmenState.totalCards; omega
    rcases m with - | -
    · simp
    · simp
      omega
  · simp only [Except.ok.injEq, Prod.mk.injEq] at h
    obtain ⟨h2, -⟩ := h
    subst h2
    rename_i hne
    rw [not_ne_iff] at hne
    refine ⟨rfl, h0, ?_⟩
    show s.currentIndex ≤ ({ s with isMobile := m } : AmenState).maxIndex
    rw [AmenState.maxIndex]
    rw [AmenState.maxIndex] at h1
    simpa [← hne] using h1

lemma amenStep_inv (s : AmenState) (op : AmenOp) (s1 : AmenState) (effs : List Effect)
    (hn : 1 ≤ s.cards.length) (h0 : 0 ≤ s.currentIndex) (h1 : s.currentIndex ≤ s.maxIndex)
    (hstep : amenStep s op = .ok (s1, effs)) :
    s1.cards = s.cards ∧ 0 ≤ s1.currentIndex ∧ s1.currentIndex ≤ s1.maxIndex := by
  obtain ⟨w, rest, hc⟩ : ∃ w rest, s.cards = w :: rest := by
    cases hcs : s.cards with
    | nil => rw [hcs] at hn; simp at hn
    | cons a l => exact ⟨a, l, rfl⟩
  cases op with
  | next => exact amenGoToNext_inv w rest hc h0 h1 hstep
  | prev => exact amenGoToPrevious_inv w rest hc h0 h1 hstep
  | scroll g => exact amenSyncWithScroll_inv hn h0 h1 hstep
  | swipe d =>
    rw [amenStep, amenOnSwipe] at hstep
    split at hstep
    · split at hstep
      · exact amenGoToNext_inv w rest hc h0 h1 hstep
      · exact amenGoToPrevious_inv w rest hc h0 h1 hstep
    · simp only [Except.ok.injEq, Prod.mk.injEq] at hstep
      obtain ⟨h2, -⟩ := hstep
      subst h2
      exact ⟨rfl, h0, h1⟩
  | resize m => exact amenOnResize_inv w rest hc hn h0 h1 hstep
  | settle =>
    rw [amenStep] at hstep
    simp only [Except.ok.injEq, Prod.mk.injEq] at hstep
    obtain ⟨h2, -⟩ := hstep
    subst h2
    exact ⟨rfl, h0, h1⟩

lemma amenRun_inv (ops : List AmenOp) (s : AmenState) (s1 : AmenState)
    (hn : 1 ≤ s.cards.length) (h0 : 0 ≤ s.currentIndex) (h1 : s.currentIndex ≤ s.maxIndex)
    (hrun : amenRun s ops = .ok s1) :
    0 ≤ s1.currentIndex ∧ s1.currentIndex ≤ s1.maxIndex := by
  induction ops generalizing s with
  | nil =>
    rw [amenRun] at hrun
    simp only [Except.ok.injEq] at hrun
    subst hrun
    exact ⟨h0, h1⟩
  | cons op ops ih =>
    rw [amenRun] at hrun
    cases hstep : amenStep s op with
    | error e => rw [hstep] at hrun; simp at hrun
    | ok p =>
      obtain ⟨s2, effs⟩ := p
      rw [hstep] at hrun
      obtain ⟨hcards, h0b, h1b⟩ := amenStep_inv s op s2 effs hn h0 h1 hstep
      exact ih s2 (by rw [hcards]; exact hn) h0b h1b hrun

/-- Counterexample to C2 as stated: from a state satisfying the invariant, a
single `goToSlide(-1)` (an indicator-style call with an out-of-range
argument, which the code accepts unclamped) drives `currentIndex` to `-1`,
leaving `[0, maxIndex]`. -/
theorem C2_counterexample :
    (0 ≤ roomsMobile3.currentIndex ∧ roomsMobile3.currentIndex ≤ roomsMobile3.maxIndex) ∧
    (roomsRun roomsMobile3 [.slide (-1)]).map (fun s => decide (0 ≤ s.currentIndex)) =
      .ok false := by
  constructor
  · norm_num [roomsMobile3, RoomsState.maxIndex, RoomsState.totalRooms]
  · norm_num [roomsRun, roomsStep, roomsGoToSlide, roomsUpdateCarousel, roomsMobile3,
      Except.map]

/-- C2 (amended): after any sequence of operations — arrow clicks, indicator
clicks with the in-range arguments the dot wiring actually passes, native
scrolls, swipes, keyboard arrows, breakpoint flips and settle-timer firings —
`0 ≤ currentIndex ≤ maxIndex` still holds, provided the rooms carousel has at
least 2 items and the amenities carousel at least 1 (so that `maxIndex` is
nonnegative in every viewport mode).  As literally stated the claim fails:
`goToIndex` does not clamp, and with fewer items `maxIndex` itself is
negative while `currentIndex` is 0. -/
theorem C2_index_invariant (s : RoomsState) (ops : List RoomsOp) (s1 : RoomsState)
    (t : AmenState) (tops : List AmenOp) (t1 : AmenState)
    (hn : 2 ≤ s.totalRooms) (h0 : 0 ≤ s.currentIndex) (h1 : s.currentIndex ≤ s.maxIndex)
    (hok : RoomsOpsOk s ops) (hrun : roomsRun s ops = .ok s1)
    (hnt : 1 ≤ t.totalCards) (h0t : 0 ≤ t.currentIndex) (h1t : t.currentIndex ≤ t.maxIndex)
    (hrunt : amenRun t tops = .ok t1) :
    (0 ≤ s1.currentIndex ∧ s1.currentIndex ≤ s1.maxIndex) ∧
    (0 ≤ t1.currentIndex ∧ t1.currentIndex ≤ t1.maxIndex) :=
  ⟨roomsRun_inv ops s s1 hn h0 h1 hok hrun, amenRun_inv tops t t1 hnt h0t h1t hrunt⟩

/-- Witness for C2 (amended): one `goToNext` on each concrete carousel. -/
theorem C2_index_invariant_witness :
    (0 ≤ ({ cards := [300, 300, 300], currentIndex := 1, isScrolling := true,
            isMobile := true, dotCount := 3 } : RoomsState).currentIndex ∧
      ({ cards := [300, 300, 300], currentIndex := 1, isScrolling := true,
         isMobile := true, dotCount := 3 } : RoomsState).currentIndex ≤
        ({ cards := [300, 300, 300], currentIndex := 1, isScrolling := true,
           isMobile := true, dotCount := 3 } : RoomsState).maxIndex) ∧
    (0 ≤ ({ cards := [250, 250, 250, 250, 250, 250, 250, 250], currentIndex := 2,
            isScrolling := true, isMobile := false } : AmenState).currentIndex ∧
      ({ cards := [250, 250, 250, 250, 250, 250, 250, 250], currentIndex := 2,
         isScrolling := true, isMobile := false } : AmenState).currentIndex ≤
        ({ cards := [250, 250, 250, 250, 250, 250, 250, 250], currentIndex := 2,
           isScrolling := true, isMobile := false } : AmenState).maxIndex) :=
  C2_index_invariant roomsMobile3 [.next]
    { cards := [300, 300, 300], currentIndex := 1, isScrolling := true,
      isMobile := true, dotCount := 3 }
    amenWide8 [.next]
    { cards := [250, 250, 250, 250, 250, 250, 250, 250], currentIndex := 2,
      isScrolling := true, isMobile := false }
    (by norm_num [roomsMobile3, RoomsState.totalRooms])
    (by norm_num [roomsMobile3])
    (by norm_num [roomsMobile3, RoomsState.maxIndex, RoomsState.totalRooms])
    (RoomsOpsOk.cons _ _ _ trivial fun s1 effs _ => RoomsOpsOk.nil s1)
    (by norm_num [roomsRun, roomsStep, roomsGoToNext, roomsUpdateCarousel, roomsMobile3,
      RoomsState.maxIndex, RoomsState.totalRooms])
    (by norm_num [amenWide8, AmenState.totalCards])
    (by norm_num [amenWide8])
    (by norm_num [amenWide8, AmenState.maxIndex, AmenState.totalCards])
    (by norm_num [amenRun, amenStep, amenGoToNext, amenUpdateCarousel, amenWide8,
      AmenState.maxIndex, AmenState.totalCards])

/-- A wide rooms carousel parked on its last reachable position
(`maxIndex = totalRooms - 2 = 2`). -/
def roomsWide4End : RoomsState :=
  { cards := [300, 300, 300, 300], currentIndex := 2, isScrolling := false, isMobile := false,
    dotCount := 3 }

/-- A narrow amenities carousel with two cards at index 0. -/
def amenMobile2 : AmenState :=
  { cards := [250, 250], currentIndex := 0, isScrolling := false, isMobile := true }

/-- A wide amenities carousel parked on its last position (`maxIndex = 4`). -/
def amenWide8End : AmenState :=
  { cards := [250, 250, 250, 250, 250, 250, 250, 250], currentIndex := 4,
    isScrolling := false, isMobile := false }

/-- A wide rooms carousel with three cards at index 0 (code bound
`totalRooms - 2 = 1`, two dots). -/
def roomsWide3 : RoomsState :=
  { cards := [300, 300, 300], currentIndex := 0, isScrolling := false, isMobile := false,
    dotCount := 2 }

/-- Counterexample to C3 as stated: on the wide rooms carousel with 3 cards
the claimed formula (`visibleCount = 3`) yields `maxIndex = 0`, but the bound
the code uses is `totalRooms - 2 = 1` — `goToNext` from index 0 advances. -/
theorem C3_counterexample :
    specMaxIndex 3 3 = 0 ∧ roomsWide3.maxIndex = 1 ∧
    (roomsGoToNext roomsWide3).map (fun p => p.1.currentIndex) = .ok 1 := by
  refine ⟨by norm_num [specMaxIndex],
    by norm_num [roomsWide3, RoomsState.maxIndex, RoomsState.totalRooms], ?_⟩
  norm_num [roomsGoToNext, roomsUpdateCarousel, roomsWide3, RoomsState.maxIndex,
    RoomsState.totalRooms, Except.map]

/-- C3 (amended): the bound shared by `goToNext`, the scroll clamp and the
next-control disabling is `itemCount - 1` in Narrow mode for both carousels
(the spec formula with `visibleCount = 1`, for at least one item, without the
flooring at 0); in Wide mode it is `itemCount - 2` for the rooms carousel
(effective visible count 2, not 3, for at least two items and again
unfloored) and `Math.max(0, itemCount - 4)` for the amenities carousel (the
spec formula with `visibleCount = 4`, valid for every item count).  At or
beyond the bound, `goToNext` is a no-op and the next control is disabled. -/
theorem C3_maxIndex_formulas (s s' : RoomsState) (t t' : AmenState)
    (hsm : s.isMobile = true) (hsn : 1 ≤ s.totalRooms)
    (hsm' : s'.isMobile = false) (hsn' : 2 ≤ s'.totalRooms)
    (htm : t.isMobile = true) (htn : 1 ≤ t.totalCards)
    (htm' : t'.isMobile = false)
    (hb : s'.maxIndex ≤ s'.currentIndex) (hbt : t'.maxIndex ≤ t'.currentIndex) :
    s.maxIndex = specMaxIndex s.totalRooms 1 ∧
    s'.maxIndex = specMaxIndex s'.totalRooms 2 ∧
    t.maxIndex = specMaxIndex t.totalCards 1 ∧
    t'.maxIndex = specMaxIndex t'.totalCards 4 ∧
    roomsGoToNext s' = .ok (s', []) ∧
    (roomsUpdateUI s').nextDisabled = true ∧
    amenGoToNext t' = .ok (t', []) ∧
    (amenUpdateUI t').nextDisabled = true := by
  refine ⟨?_, ?_, ?_, ?_, ?_, ?_, ?_, ?_⟩
  · rw [RoomsState.maxIndex, if_pos hsm, specMaxIndex, if_pos hsn]
    norm_num
  · rw [RoomsState.maxIndex, if_neg (by simp [hsm']), specMaxIndex, if_pos hsn']
    norm_num
  · rw [AmenState.maxIndex, if_pos htm, specMaxIndex, if_pos htn]
    norm_num
  · rw [AmenState.maxIndex, if_neg (by simp [htm']), specMaxIndex]
    split
    · rename_i hge
      omega
    · rename_i hlt
      omega
  · rw [roomsGoToNext, if_neg (by omega)]
  · simp [roomsUpdateUI, hb]
  · rw [amenGoToNext, if_neg (by omega)]
  · simp [amenUpdateUI, hbt]

/-- Witness for C3 (amended) on concrete carousels in each mode. -/
theorem C3_maxIndex_formulas_witness :
    roomsMobile3.maxIndex = specMaxIndex roomsMobile3.totalRooms 1 ∧
    roomsWide4End.maxIndex = specMaxIndex roomsWide4End.totalRooms 2 ∧
    amenMobile2.maxIndex = specMaxIndex amenMobile2.totalCards 1 ∧
    amenWide8End.maxIndex = specMaxIndex amenWide8End.totalCards 4 ∧
    roomsGoToNext roomsWide4End = .ok (roomsWide4End, []) ∧
    (roomsUpdateUI roomsWide4End).nextDisabled = true ∧
    amenGoToNext amenWide8End = .ok (amenWide8End, []) ∧
    (amenUpdateUI amenWide8End).nextDisabled = true :=
  C3_maxIndex_formulas roomsMobile3 roomsWide4End amenMobile2 amenWide8End
    rfl
    (by norm_num [roomsMobile3, RoomsState.totalRooms])
    rfl
    (by norm_num [roomsWide4End, RoomsState.totalRooms])
    rfl
    (by norm_num [amenMobile2, AmenState.totalCards])
    rfl
    (by norm_num [roomsWide4End, RoomsState.maxIndex, RoomsState.totalRooms])
    (by norm_num [amenWide8End, AmenState.maxIndex, AmenState.totalCards])

/-- An attached rooms carousel whose container holds zero `.room-card`
items (the state the half-completed constructor leaves behind). -/
def roomsEmpty : RoomsState :=
  { cards := [], currentIndex := 0, isScrolling := false, isMobile := true, dotCount := 0 }

/-- An attached amenities carousel with zero `.amenity-card` items. -/
def amenEmpty : AmenState :=
  { cards := [], currentIndex := 0, isScrolling := false, isMobile := true }

/-- Counterexample to C4 as stated: with a present container holding zero
items, `init` reaches `updateCarousel`, whose `cards[0].offsetWidth` read
throws a `TypeError` — so not every operation is a throw-free no-op. -/
theorem C4_counterexample :
    roomsInit (some []) true = .error .typeError := by
  norm_num [roomsInit, roomsUpdateCarousel, roomsNumDots, Except.map]

/-- C4 (amended): with the container absent, `init` is a throw-free no-op;
with a present container and zero items, `goToNext`/`goToPrevious` are
throw-free no-ops (their boundary guards fail at index 0) and the scroll
handler is a no-op while `isAnimating`; `initialize` and `goToIndex` throw a
`TypeError` from dereferencing the missing first card in both classes.  The
non-animating scroll handler throws wherever it reads the first card's
width: always for the rooms carousel (it reads before branching) and in
Narrow mode for the amenities carousel — but the amenities Wide-mode branch
reads no card width and is a throw-free no-op. -/
theorem C4_zero_items (s : RoomsState) (t : AmenState) (g : ScrollGeom) (m : Bool) (i : ℤ)
    (hc : s.cards = []) (h0 : s.currentIndex = 0)
    (htc : t.cards = []) (ht0 : t.currentIndex = 0) :
    roomsGoToNext s = .ok (s, []) ∧
    roomsGoToPrevious s = .ok (s, []) ∧
    roomsSyncWithScroll { s with isScrolling := true } g =
      .ok ({ s with isScrolling := true }, []) ∧
    roomsSyncWithScroll { s with isScrolling := false } g = .error .typeError ∧
    roomsGoToSlide s i = .error .typeError ∧
    roomsInit none m = .ok none ∧
    roomsInit (some []) m = .error .typeError ∧
    amenGoToNext t = .ok (t, []) ∧
    amenGoToPrevious t = .ok (t, []) ∧
    amenSyncWithScroll { t with isScrolling := true } g =
      .ok ({ t with isScrolling := true }, []) ∧
    amenSyncWithScroll { t with isScrolling := false, isMobile := true } g =
      .error .typeError ∧
    amenSyncWithScroll { t with isScrolling := false, isMobile := false } g =
      .ok ({ t with isScrolling := false, isMobile := false }, []) ∧
    amenInit (some []) m = .error .typeError := by
  have hmx : s.maxIndex ≤ -1 := by
    unfold RoomsState.maxIndex RoomsState.totalRooms
    rw [hc]
    split <;> norm_num
  have hmxt : t.maxIndex ≤ 0 := by
    unfold AmenState.maxIndex AmenState.totalCards
    rw [htc]
    split <;> norm_num
  refine ⟨?_, ?_, ?_, ?_, ?_, ?_, ?_, ?_, ?_, ?_, ?_, ?_, ?_⟩
  · rw [roomsGoToNext, if_neg (by omega)]
  · rw [roomsGoToPrevious, if_neg (by omega)]
  · unfold roomsSyncWithScroll
    simp
  · unfold roomsSyncWithScroll
    simp [hc]
  · simp [roomsGoToSlide, roomsUpdateCarousel, hc]
  · rfl
  · norm_num [roomsInit, roomsUpdateCarousel, roomsNumDots, Except.map]
  · have : ¬(t.currentIndex < t.maxIndex) := by omega
    rw [amenGoToNext, if_neg this]
  · rw [amenGoToPrevious, if_neg (by omega)]
  · unfold amenSyncWithScroll
    simp
  · unfold amenSyncWithScroll amenNewIndex
    simp [htc]
  · have hnew : amenNewIndex { t with isScrolling := false, isMobile := false } g = .ok 0 := by
      unfold amenNewIndex
      simp only [Bool.false_eq_true, if_false, AmenState.totalCards, htc, List.length_nil,
        Nat.cast_zero]
      split
      · have h4 : max (0 : ℤ) (0 - 4) = 0 := by omega
        rw [h4]
        norm_num [jsRound, jsClamp]
      · rfl
    unfold amenSyncWithScroll
    rw [if_neg (by simp), hnew]
    simp [ht0]
  · norm_num [amenInit, amenUpdateCarousel, Except.map]

/-- Witness for C4 (amended) on concrete empty carousels. -/
theorem C4_zero_items_witness :
    roomsGoToNext roomsEmpty = .ok (roomsEmpty, []) ∧
    roomsGoToPrevious roomsEmpty = .ok (roomsEmpty, []) ∧
    roomsSyncWithScroll { roomsEmpty with isScrolling := true } ⟨0, 0, 0⟩ =
      .ok ({ roomsEmpty with isScrolling := true }, []) ∧
    roomsSyncWithScroll { roomsEmpty with isScrolling := false } ⟨0, 0, 0⟩ =
      .error .typeError ∧
    roomsGoToSlide roomsEmpty 0 = .error .typeError ∧
    roomsInit none true = .ok none ∧
    roomsInit (some []) true = .error .typeError ∧
    amenGoToNext amenEmpty = .ok (amenEmpty, []) ∧
    amenGoToPrevious amenEmpty = .ok (amenEmpty, []) ∧
    amenSyncWithScroll { amenEmpty with isScrolling := true } ⟨0, 0, 0⟩ =
      .ok ({ amenEmpty with isScrolling := true }, []) ∧
    amenSyncWithScroll { amenEmpty with isScrolling := false, isMobile := true } ⟨0, 0, 0⟩ =
      .error .typeError ∧
    amenSyncWithScroll { amenEmpty with isScrolling := false, isMobile := false } ⟨0, 0, 0⟩ =
      .ok ({ amenEmpty with isScrolling := false, isMobile := false }, []) ∧
    amenInit (some []) true = .error .typeError :=
  C4_zero_items roomsEmpty amenEmpty ⟨0, 0, 0⟩ true 0 rfl rfl rfl rfl

lemma roomsSyncWithScroll_eq (s : RoomsState) (g : ScrollGeom) (w : ℚ) (rest : List ℚ)
    (hs : s.isScrolling = false) (hc : s.cards = w :: rest) :
    roomsSyncWithScroll s g =
      if roomsNewIndex s g w ≠ s.currentIndex then
        .ok ({ s with currentIndex := roomsNewIndex s g w },
          [.render (roomsUpdateUI { s with currentIndex := roomsNewIndex s g w })])
      else .ok (s, []) := by
  unfold roomsSyncWithScroll
  rw [if_neg (by simp [hs]), hc]
  simp only [List.head?_cons]

lemma amenSyncWithScroll_eq (t : AmenState) (g : ScrollGeom) (k : ℤ)
    (hs : t.isScrolling = false) (hk : amenNewIndex t g = .ok k) :
    amenSyncWithScroll t g =
      if k ≠ t.currentIndex then
        .ok ({ t with currentIndex := k },
          [.render (amenUpdateUI { t with currentIndex := k })])
      else .ok (t, []) := by
  unfold amenSyncWithScroll
  rw [if_neg (by simp [hs]), hk]

lemma roomsNewIndex_eq_spec (s : RoomsState) (g : ScrollGeom) (w : ℚ) :
    roomsNewIndex s g w =
      specScrollIndex s.isMobile s.totalRooms s.maxIndex w 30 g.scrollLeft
        (g.scrollWidth - g.clientWidth) := by
  unfold roomsNewIndex specScrollIndex RoomsState.maxIndex
  cases s.isMobile with
  | true => simp
  | false =>
    simp only [Bool.false_eq_true, if_false]
    split
    · congr 2
      push_cast
      ring
    · rfl

lemma amenNewIndex_eq_spec (t : AmenState) (g : ScrollGeom) (w2 : ℚ) (rest2 : List ℚ)
    (hc2 : t.cards = w2 :: rest2) :
    amenNewIndex t g =
      .ok (specScrollIndex t.isMobile t.totalCards t.maxIndex w2 20 g.scrollLeft
        (g.scrollWidth - g.clientWidth)) := by
  unfold amenNewIndex specScrollIndex AmenState.maxIndex
  cases t.isMobile with
  | true =>
    rw [hc2]
    simp
  | false =>
    simp only [Bool.false_eq_true, if_false]
    split <;> rfl

/-- C5 (confirmed): while `isAnimating` the scroll handler leaves the state
untouched and issues nothing; otherwise the recomputed index follows exactly
the spec's formula (`specScrollIndex`, with each instance's own `maxIndex`,
card width and gap), and a re-render is issued precisely when the recomputed
index differs from the stored one — for both carousel classes. -/
theorem C5_scroll_formula (u s : RoomsState) (v t : AmenState) (g : ScrollGeom)
    (hu : u.isScrolling = true) (hs : s.isScrolling = false)
    (w : ℚ) (rest : List ℚ) (hc : s.cards = w :: rest)
    (hv : v.isScrolling = true) (ht : t.isScrolling = false)
    (w2 : ℚ) (rest2 : List ℚ) (hc2 : t.cards = w2 :: rest2) :
    roomsSyncWithScroll u g = .ok (u, []) ∧
    (roomsSyncWithScroll s g).map (fun p => (p.1.currentIndex, p.2.length)) =
      .ok (specScrollIndex s.isMobile s.totalRooms s.maxIndex w 30 g.scrollLeft
            (g.scrollWidth - g.clientWidth),
          if specScrollIndex s.isMobile s.totalRooms s.maxIndex w 30 g.scrollLeft
              (g.scrollWidth - g.clientWidth) = s.currentIndex then 0 else 1) ∧
    amenSyncWithScroll v g = .ok (v, []) ∧
    (amenSyncWithScroll t g).map (fun p => (p.1.currentIndex, p.2.length)) =
      .ok (specScrollIndex t.isMobile t.totalCards t.maxIndex w2 20 g.scrollLeft
            (g.scrollWidth - g.clientWidth),
          if specScrollIndex t.isMobile t.totalCards t.maxIndex w2 20 g.scrollLeft
              (g.scrollWidth - g.clientWidth) = t.currentIndex then 0 else 1) := by
  refine ⟨?_, ?_, ?_, ?_⟩
  · unfold roomsSyncWithScroll
    rw [if_pos hu]
  · rw [roomsSyncWithScroll_eq s g w rest hs hc, roomsNewIndex_eq_spec]
    split
    · rename_i hne
      simp [Except.map, hne]
    · rename_i hne
      rw [not_ne_iff] at hne
      simp [Except.map, hne]
  · unfold amenSyncWithScroll
    rw [if_pos hv]
  · rw [amenSyncWithScroll_eq t g _ ht (amenNewIndex_eq_spec t g w2 rest2 hc2)]
    split
    · rename_i hne
      simp [Except.map, hne]
    · rename_i hne
      rw [not_ne_iff] at hne
      simp [Except.map, hne]

/-- Witness for C5 on concrete carousels in both animation states. -/
theorem C5_scroll_formula_witness :
    roomsSyncWithScroll { roomsMobile3 with isScrolling := true } ⟨330, 990, 330⟩ =
      .ok ({ roomsMobile3 with isScrolling := true }, []) ∧
    (roomsSyncWithScroll roomsMobile3 ⟨330, 990, 330⟩).map
        (fun p => (p.1.currentIndex, p.2.length)) =
      .ok (specScrollIndex roomsMobile3.isMobile roomsMobile3.totalRooms
            roomsMobile3.maxIndex 300 30 (330 : ℚ) ((990 : ℚ) - 330),
          if specScrollIndex roomsMobile3.isMobile roomsMobile3.totalRooms
              roomsMobile3.maxIndex 300 30 (330 : ℚ) ((990 : ℚ) - 330) =
            roomsMobile3.currentIndex then 0 else 1) ∧
    amenSyncWithScroll { amenWide8 with isScrolling := true } ⟨330, 990, 330⟩ =
      .ok ({ amenWide8 with isScrolling := true }, []) ∧
    (amenSyncWithScroll amenWide8 ⟨330, 990, 330⟩).map
        (fun p => (p.1.currentIndex, p.2.length)) =
      .ok (specScrollIndex amenWide8.isMobile amenWide8.totalCards
            amenWide8.maxIndex 250 20 (330 : ℚ) ((990 : ℚ) - 330),
          if specScrollIndex amenWide8.isMobile amenWide8.totalCards
              amenWide8.maxIndex 250 20 (330 : ℚ) ((990 : ℚ) - 330) =
            amenWide8.currentIndex then 0 else 1) :=
  C5_scroll_formula { roomsMobile3 with isScrolling := true } roomsMobile3
    { amenWide8 with isScrolling := true } amenWide8 ⟨330, 990, 330⟩
    rfl rfl 300 [300, 300] rfl rfl rfl 250 [250, 250, 250, 250, 250, 250, 250] rfl

lemma div_mul_cancel_round (a : ℚ) (k m : ℤ) (ha : a ≠ 0) (hm : (m : ℚ) ≠ 0) :
    a * (k : ℚ) / (a * (m : ℚ)) * (m : ℚ) = (k : ℚ) := by
  field_simp
  ring

/-- Counterexample to C6 as stated: wide rooms carousel, 4 cards
(`maxIndex = 2`), card width 300, gap 30.  `goToSlide(1)` commands offset
330; at that offset, with container geometry `scrollWidth - clientWidth =
200`, the wide-mode formula recomputes `clamp(round(330/200 * 2), 0, 2) = 2`,
not 1 — the round-trip fails for general geometry. -/
theorem C6_counterexample :
    (roomsGoToSlide { roomsWide4 with currentIndex := 0 } 1).map (fun p => p.2.head?) =
      .ok (some (.scrollTo 330)) ∧
    roomsWide4.currentIndex = 1 ∧
    (roomsSyncWithScroll roomsWide4 ⟨330, 1000, 800⟩).map (fun p => p.1.currentIndex) =
      .ok 2 := by
  refine ⟨?_, rfl, ?_⟩
  · norm_num [roomsGoToSlide, roomsUpdateCarousel, roomsWide4, Except.map]
  · norm_num [roomsSyncWithScroll, roomsNewIndex, roomsWide4, RoomsState.totalRooms,
      jsRound, jsClamp, Except.map]

/-- C6 (amended): the round-trip holds unconditionally in Narrow mode —
`goToSlide(k)` commands offset `(cardWidth + 30) * k`, and recomputing the
index from that offset gives `k` back, so the settled scroll handler issues
no state change and no re-render.  In Wide mode the round-trip is not
guaranteed for general container geometry (`C6_counterexample`: with
`maxScroll = 200` the commanded offset for `k = 1` reads back as 2); it does
hold whenever the geometry satisfies `scrollWidth - clientWidth =
(cardWidth + gap) * maxIndex`, which is the sufficient condition this
theorem proves. -/
theorem C6_roundtrip (s : RoomsState) (g : ScrollGeom) (w : ℚ) (rest : List ℚ) (k : ℤ)
    (hc : s.cards = w :: rest) (hw : 0 ≤ w) (hs : s.isScrolling = false)
    (hcur : s.currentIndex = k) (h0 : 0 ≤ k) (h1 : k ≤ s.maxIndex)
    (hoff : g.scrollLeft = (w + 30) * (k : ℚ))
    (hwide : s.isMobile = false →
      g.scrollWidth - g.clientWidth = (w + 30) * (s.maxIndex : ℚ)) :
    (roomsGoToSlide s k).map (fun p => p.2.head?) =
      .ok (some (.scrollTo g.scrollLeft)) ∧
    roomsSyncWithScroll s g = .ok (s, []) := by
  have hw30 : (0 : ℚ) < w + 30 := by linarith
  have hwne : (w + 30) ≠ 0 := ne_of_gt hw30
  have hidx : roomsNewIndex s g w = k := by
    unfold roomsNewIndex
    cases hm : s.isMobile with
    | true =>
      have hmax : s.maxIndex = (s.totalRooms : ℤ) - 1 := by
        rw [RoomsState.maxIndex, if_pos hm]
      simp only [if_true]
      rw [hoff, mul_comm (w + 30) (k : ℚ), mul_div_assoc, div_self hwne, mul_one,
        jsRound_intCast]
      exact jsClamp_of_mem h0 (by omega)
    | false =>
      have hmax : s.maxIndex = (s.totalRooms : ℤ) - 2 := by
        rw [RoomsState.maxIndex, if_neg (by simp [hm])]
      simp only [Bool.false_eq_true, if_false]
      rw [hwide hm, hoff]
      rcases eq_or_lt_of_le (h0.trans h1) with hM | hM
      · rw [if_neg]
        · omega
        · rw [← hM]
          simp
      · rw [if_pos (by positivity)]
        have hcast : ((s.totalRooms : ℚ) - 2) = ((s.maxIndex : ℤ) : ℚ) := by
          rw [hmax]
          push_cast
          ring
        rw [hcast, div_mul_cancel_round (w + 30) k s.maxIndex hwne
          (by exact_mod_cast ne_of_gt hM), jsRound_intCast]
        exact jsClamp_of_mem h0 (by omega)
  refine ⟨?_, ?_⟩
  · rw [roomsGoToSlide, roomsUpdateCarousel_ok { s with currentIndex := k } w rest hc, hoff]
    rfl
  · rw [roomsSyncWithScroll_eq s g w rest hs hc, hidx, if_neg (by rw [hcur]; exact fun h => h rfl)]

/-- Witness for C6 (amended): wide rooms carousel with 4 cards settled at
`k = 2`, geometry `maxScroll = 330 * 2`. -/
theorem C6_roundtrip_witness :
    (roomsGoToSlide roomsWide4End 2).map (fun p => p.2.head?) =
      .ok (some (.scrollTo (660 : ℚ))) ∧
    roomsSyncWithScroll roomsWide4End ⟨660, 990, 330⟩ = .ok (roomsWide4End, []) :=
  C6_roundtrip roomsWide4End ⟨660, 990, 330⟩ 300 [300, 300, 300] 2 rfl (by norm_num) rfl
    rfl (by norm_num)
    (by norm_num [roomsWide4End, RoomsState.maxIndex, RoomsState.totalRooms])
    (by norm_num)
    (by
      intro _
      norm_num [roomsWide4End, RoomsState.maxIndex, RoomsState.totalRooms])

lemma count_true_indicator (d m : ℕ) :
    (((List.range d).map fun j => decide (j = m)).count true) =
      if m < d then 1 else 0 := by
  induction d with
  | zero => simp
  | succ d ih =>
    rw [List.range_succ, List.map_append, List.count_append, ih]
    by_cases hdm : d = m
    · subst hdm
      simp [List.count_cons]
    · by_cases hml : m < d
      · simp [List.count_cons, hdm, Nat.lt_succ_of_lt hml, hml]
      · have : ¬(m < d + 1) := by omega
        simp [List.count_cons, hdm, hml, this]

/-- Counterexample to C7 as stated: the amenities carousel has no indicator
elements at all, so at the perfectly valid index 1 its render marks zero
indicators active, not exactly one. -/
theorem C7_counterexample :
    (0 ≤ amenWide8.currentIndex ∧ amenWide8.currentIndex ≤ amenWide8.maxIndex) ∧
    (amenUpdateUI amenWide8).dots.count true = 0 := by
  constructor
  · norm_num [amenWide8, AmenState.maxIndex, AmenState.totalCards]
  · norm_num [amenWide8, amenUpdateUI]

/-- C7 (amended): for the rooms carousel, with the dots as `createDots` built
them for the current mode and any `currentIndex ∈ [0, maxIndex]`, the render
marks exactly one indicator active — the one at position `currentIndex` — and
disables the prev control iff `currentIndex = 0` and the next control iff
`currentIndex = maxIndex`.  The amenities carousel has no indicators (its
render updates only the two controls, which satisfy the same disabling
conditions). -/
theorem C7_render_state (s : RoomsState) (t : AmenState)
    (hd : s.dotCount = roomsNumDots s.isMobile s.totalRooms)
    (h0 : 0 ≤ s.currentIndex) (h1 : s.currentIndex ≤ s.maxIndex)
    (h0t : 0 ≤ t.currentIndex) (h1t : t.currentIndex ≤ t.maxIndex) :
    (roomsUpdateUI s).dots.count true = 1 ∧
    (roomsUpdateUI s).dots[s.currentIndex.toNat]? = some true ∧
    ((roomsUpdateUI s).prevDisabled = true ↔ s.currentIndex = 0) ∧
    ((roomsUpdateUI s).nextDisabled = true ↔ s.currentIndex = s.maxIndex) ∧
    (amenUpdateUI t).dots = [] ∧
    ((amenUpdateUI t).prevDisabled = true ↔ t.currentIndex = 0) ∧
    ((amenUpdateUI t).nextDisabled = true ↔ t.currentIndex = t.maxIndex) := by
  have hmn : s.currentIndex.toNat < s.dotCount := by
    rw [hd, roomsNumDots]
    rw [RoomsState.maxIndex] at h1
    cases hm : s.isMobile with
    | true =>
      rw [hm] at h1
      simp only [if_true] at h1 ⊢
      omega
    | false =>
      rw [hm] at h1
      simp only [Bool.false_eq_true, if_false] at h1 ⊢
      omega
  have hfun : ∀ j : ℕ, decide ((j : ℤ) = s.currentIndex) = decide (j = s.currentIndex.toNat) := by
    intro j
    rw [decide_eq_decide]
    omega
  refine ⟨?_, ?_, ?_, ?_, rfl, ?_, ?_⟩
  · simp only [roomsUpdateUI]
    rw [List.map_congr_left fun a _ => hfun a, count_true_indicator, if_pos hmn]
  · simp only [roomsUpdateUI]
    rw [List.getElem?_map, List.getElem?_range hmn]
    simp only [Option.map_some']
    congr 1
    rw [decide_eq_true_eq]
    omega
  · simp [roomsUpdateUI]
  · simp only [roomsUpdateUI, decide_eq_true_eq]
    omega
  · simp [amenUpdateUI]
  · simp only [amenUpdateUI, decide_eq_true_eq]
    omega

/-- Witness for C7 (amended) on the wide four-card rooms carousel at index 1
and the wide amenities carousel at index 1. -/
theorem C7_render_state_witness :
    (roomsUpdateUI roomsWide4).dots.count true = 1 ∧
    (roomsUpdateUI roomsWide4).dots[roomsWide4.currentIndex.toNat]? = some true ∧
    ((roomsUpdateUI roomsWide4).prevDisabled = true ↔ roomsWide4.currentIndex = 0) ∧
    ((roomsUpdateUI roomsWide4).nextDisabled = true ↔
      roomsWide4.currentIndex = roomsWide4.maxIndex) ∧
    (amenUpdateUI amenWide8).dots = [] ∧
    ((amenUpdateUI amenWide8).prevDisabled = true ↔ amenWide8.currentIndex = 0) ∧
    ((amenUpdateUI amenWide8).nextDisabled = true ↔
      amenWide8.currentIndex = amenWide8.maxIndex) :=
  C7_render_state roomsWide4 amenWide8
    (by norm_num [roomsWide4, roomsNumDots, RoomsState.totalRooms])
    (by norm_num [roomsWide4])
    (by norm_num [roomsWide4, RoomsState.maxIndex, RoomsState.totalRooms])
    (by norm_num [amenWide8])
    (by norm_num [amenWide8, AmenState.maxIndex, AmenState.totalCards])

/-- Counterexample to C8 as stated: in `updateCarousel` the smooth-scroll
command is issued first and `updateUI` runs after it, so the render does not
precede the scroll command. -/
theorem C8_counterexample :
    (roomsGoToSlide roomsMobile3 1).map (fun p => renderBeforeScroll p.2) = .ok false := by
  norm_num [roomsGoToSlide, roomsUpdateCarousel, roomsMobile3, renderBeforeScroll,
    List.findIdx?, Except.map]

/-- C8 (amended): every `updateCarousel` run (the tail of `goToNext`,
`goToPrevious` and `goToSlide`) issues, within one synchronous step, exactly
the scroll command to `(cardWidth + gap) * currentIndex` followed
immediately by the indicator/control render for the already-updated index and
the arming of the settle timer — so the rendered state matches the logical
index by the time the operation returns, although the render follows (not
precedes) the scroll command. -/
theorem C8_sync_order (s : RoomsState) (t : AmenState) (w w2 : ℚ) (rest rest2 : List ℚ)
    (hc : s.cards = w :: rest) (hc2 : t.cards = w2 :: rest2) :
    roomsUpdateCarousel s = .ok ({ s with isScrolling := true },
      [.scrollTo ((w + 30) * (s.currentIndex : ℚ)),
       .render (roomsUpdateUI { s with isScrolling := true }), .armTimer]) ∧
    amenUpdateCarousel t = .ok ({ t with isScrolling := true },
      [.scrollTo ((w2 + 20) * (t.currentIndex : ℚ)),
       .render (amenUpdateUI { t with isScrolling := true }), .armTimer]) ∧
    renderBeforeScroll [Effect.scrollTo ((w + 30) * (s.currentIndex : ℚ)),
      .render (roomsUpdateUI { s with isScrolling := true }), .armTimer] = false :=
  ⟨roomsUpdateCarousel_ok s w rest hc, amenUpdateCarousel_ok t w2 rest2 hc2, by
    norm_num [renderBeforeScroll, List.findIdx?]⟩

/-- Witness for C8 (amended) on the concrete three-card rooms carousel and
eight-card amenities carousel. -/
theorem C8_sync_order_witness :
    roomsUpdateCarousel roomsMobile3 = .ok ({ roomsMobile3 with isScrolling := true },
      [.scrollTo ((300 + 30) * (roomsMobile3.currentIndex : ℚ)),
       .render (roomsUpdateUI { roomsMobile3 with isScrolling := true }), .armTimer]) ∧
    amenUpdateCarousel amenWide8 = .ok ({ amenWide8 with isScrolling := true },
      [.scrollTo ((250 + 20) * (amenWide8.currentIndex : ℚ)),
       .render (amenUpdateUI { amenWide8 with isScrolling := true }), .armTimer]) ∧
    renderBeforeScroll [Effect.scrollTo ((300 + 30) * (roomsMobile3.currentIndex : ℚ)),
      .render (roomsUpdateUI { roomsMobile3 with isScrolling := true }), .armTimer] = false :=
  C8_sync_order roomsMobile3 amenWide8 300 250 [300, 300]
    [250, 250, 250, 250, 250, 250, 250] rfl rfl

/-- Counterexample to C9 as stated: commands at times 0 and 300 (the second
before the first's 500 ms timer fires).  At time 600 — inside the claimed
continuous window `[0, 300 + 500)` — `isScrolling` is already `false`,
because the first command's timer fired at 500 and was never cancelled. -/
theorem C9_counterexample :
    ((0 : ℤ) < 300 ∧ (300 : ℤ) < 0 + 500) ∧
    ((0 : ℤ) ≤ 600 ∧ (600 : ℤ) < 300 + 500) ∧
    isScrollingAt [0, 300] 600 = false := by
  refine ⟨⟨by norm_num, by norm_num⟩, ⟨by norm_num, by norm_num⟩, ?_⟩
  decide

/-- C9 (amended): when a second scroll-to-index command is issued before the
first command's 500 ms settle timer fires, the new command overwrites
`currentIndex`, but the first timer is not cancelled: `isAnimating` is true
from the first command only until 500 ms after the *first* command, and is
false from that moment on (in particular during the tail of the second
command's animation window). -/
theorem C9_timer_not_extended (t1 t2 t : ℤ) (h12 : t1 < t2) (h2 : t2 < t1 + 500) :
    (t1 ≤ t → t < t1 + 500 → isScrollingAt [t1, t2] t = true) ∧
    (t1 + 500 ≤ t → isScrollingAt [t1, t2] t = false) := by
  constructor
  · intro ha hb
    simp [isScrollingAt]
    omega
  · intro ha
    simp [isScrollingAt]
    omega

/-- Witness for C9 (amended) at commands 0 and 300, observed at time 200. -/
theorem C9_timer_not_extended_witness :
    ((0 : ℤ) ≤ 200 → (200 : ℤ) < 0 + 500 → isScrollingAt [0, 300] 200 = true) ∧
    ((0 : ℤ) + 500 ≤ 200 → isScrollingAt [0, 300] 200 = false) :=
  C9_timer_not_extended 0 300 200 (by norm_num) (by norm_num)

/-- C10 (confirmed): the amenities carousel registers no keydown listener, so
dispatching any keydown event — whatever key, geometry or visibility the
payload carries — leaves its state untouched and issues nothing; only the
rooms carousel's document-level handler reacts to arrow keys (witnessed by a
concrete `ArrowRight` advancing the rooms carousel). -/
theorem C10_keydown_frame (s : AmenState) (p : EventPayload) :
    amenOnEvent .keydown s p = .ok (s, []) ∧
    EventKind.keydown ∉ amenRegistrations ∧
    EventKind.keydown ∈ roomsRegistrations ∧
    (roomsOnKeydown roomsMobile3 .arrowRight true).map (fun q => q.1.currentIndex) =
      .ok 1 := by
  refine ⟨?_, by decide, by decide, ?_⟩
  · unfold amenOnEvent
    rw [if_neg (by decide)]
  · norm_num [roomsOnKeydown, roomsGoToNext, roomsUpdateCarousel, roomsMobile3,
      RoomsState.maxIndex, RoomsState.totalRooms, Except.map]
